import Mathlib

/-!
Shallow embedding of the whatsapp-reminder repository's reminder lifecycle
engine, verified against its natural-language specification.

Sources embedded:
- the Mongoose patient model (interfaces, schema defaults, and the
  `needsReminder` / `canReceiveOffers` methods);
- the patient routes (register, schedule vaccine, send reminder, update
  consent);
- the WhatsApp client (`formatPhoneNumber`, the send error contract).

Modelling conventions:
- JavaScript `Date` values and `Date.now()` are integer milliseconds since
  the epoch (`Int`); each route handler receives a single clock value `now`
  standing for the `new Date()` calls made during that request.
- Optional JavaScript fields are `Option`; a JS method that would throw a
  TypeError (accessing a field of `undefined`) returns `none` at `Option Bool`.
- The MongoDB collection is a `List Patient`; `findById` is a lookup by the
  document id, and a `save` of a fetched document writes it back in place.
  The unique index on `phone` is the duplicate check on create.
- The external WhatsApp provider call is an outcome parameter: a function
  from attempt index to `Except GatewayError WAResponse`; the code performs
  exactly one attempt, so only index 0 is consulted.
- Mongoose bookkeeping not touched by any embedded operation (the
  `preferences` subdocument, the automatic patient-level `createdAt` and
  `updatedAt` timestamps, and the free-form interaction `metadata`) is
  omitted from the record types.
-/

/-- Pet species enum of the patient schema. -/
inductive PetType
  | DOG | CAT | BIRD | RODENT | REPTILE | OTHER
deriving Repr, DecidableEq

/-- Interaction type enum of the interaction schema. -/
inductive InteractionType
  | REMINDER_SENT | CONFIRMATION | RESCHEDULE | INQUIRY | OFFER
deriving Repr, DecidableEq

/-- Delivery status enum of the interaction schema. -/
inductive MessageStatus
  | SENT | DELIVERED | READ | FAILED
deriving Repr, DecidableEq

/-- `IVaccine`: a vaccine event. `date` and `nextDoseDate` are epoch ms. -/
structure Vaccine where
  name : String
  date : Int
  time : String
  location : String
  notes : Option String
  lotNumber : Option String
  nextDoseDate : Option Int
  administered : Bool
deriving Repr, DecidableEq

/-- `IInteraction`: one append-only interaction log entry. -/
structure Interaction where
  type : InteractionType
  timestamp : Option Int
  message : Option String
  response : Option String
  messageId : Option String
  status : Option MessageStatus
deriving Repr, DecidableEq

/-- `IConsent`: the three consent flags plus their timestamps (epoch ms). -/
structure Consent where
  marketing : Bool
  reminders : Bool
  privacy : Bool
  givenAt : Int
  updatedAt : Int
deriving Repr, DecidableEq

/-- The consent subdocument default of the patient schema:
`marketing=false, reminders=true, privacy=true`, both timestamps "now". -/
def defaultConsent (now : Int) : Consent :=
  { marketing := false
    reminders := true
    privacy := true
    givenAt := now
    updatedAt := now }

/-- `IPatient`: one persisted patient document. `id` is the Mongo `_id`.
`consent` is optional here because route code defends against legacy
documents that predate consent tracking. -/
structure Patient where
  id : String
  fullName : String
  phone : String
  email : Option String
  petName : String
  petType : PetType
  petBreed : Option String
  petAge : Option Int
  petWeight : Option Int
  nextVaccine : Option Vaccine
  vaccineHistory : List Vaccine
  consent : Option Consent
  lastInteraction : Option Int
  interactions : List Interaction
deriving Repr, DecidableEq

/-- Milliseconds per day, the divisor `1000 * 60 * 60 * 24` of `needsReminder`. -/
def msPerDay : Int := 86400000

/-- Milliseconds in 24 hours, the window `24 * 60 * 60 * 1000` of
`canReceiveOffers`. -/
def twentyFourHoursMs : Int := 86400000

/-- Exact ceiling of the rational `a / b` for positive `b`, modelling
`Math.ceil` applied to the floating-point quotient. -/
def ceilDiv (a b : Int) : Int := (a + b - 1) / b

/-- The `diffDays` computation of `needsReminder`:
`Math.ceil((vaccineDate.getTime() - today.getTime()) / (1000*60*60*24))`. -/
def diffDays (vaccineMs nowMs : Int) : Int :=
  ceilDiv (vaccineMs - nowMs) msPerDay

/-- `patientSchema.methods.needsReminder`. Returns `none` when the
JavaScript method would throw (reading `reminders` of an absent consent
object; short-circuiting means an absent `nextVaccine` returns false
before consent is touched). -/
def needsReminder (p : Patient) (nowMs : Int) (daysBefore : Int) : Option Bool :=
  match p.nextVaccine with
  | none => some false
  | some v =>
    match p.consent with
    | none => none
    | some c =>
      if !c.reminders then some false
      else some (decide (diffDays v.date nowMs ≤ daysBefore ∧ 0 ≤ diffDays v.date nowMs))

/-- `patientSchema.methods.canReceiveOffers`. Returns `none` when the
JavaScript method would throw (reading `marketing` of an absent consent
object). The comparison is `lastInteraction >= Date.now() - 24h`. -/
def canReceiveOffers (p : Patient) (nowMs : Int) : Option Bool :=
  match p.consent with
  | none => none
  | some c =>
    if !c.marketing then some false
    else
      match p.lastInteraction with
      | none => some false
      | some t => some (decide (nowMs - twentyFourHoursMs ≤ t))

/-- The country code `'52'` hard-coded in `formatPhoneNumber`. -/
def defaultCountryCode : String := "52"

/-- `phone.replace(/\D/g, '')`: keep only the decimal digits. -/
def stripNonDigits (phone : String) : String :=
  String.mk (phone.data.filter Char.isDigit)

/-- `WhatsAppClient.formatPhoneNumber`: strip non-digits; a 10-digit result
gets the country code prefixed; otherwise an input starting with `'+'` is
returned as the original input without its leading `'+'`
(`phone.substring(1)`); otherwise the stripped digits are returned. -/
def formatPhoneNumber (phone : String) : String :=
  let cleanPhone := stripNonDigits phone
  if cleanPhone.length = 10 then defaultCountryCode ++ cleanPhone
  else if phone.data.head? = some '+' then String.mk (phone.data.drop 1)
  else cleanPhone

/-- One entry of the `messages` array of a provider acceptance payload. -/
structure WAMessageId where
  id : String
deriving Repr, DecidableEq

/-- `WhatsAppResponse`: the provider's message-acceptance payload. -/
structure WAResponse where
  messagingProduct : String
  contacts : List (String × String)
  messages : List WAMessageId
deriving Repr, DecidableEq

/-- The provider's structured error object
(`response.data.error` of a rejected request). -/
structure ProviderError where
  message : String
  type : String
  code : Int
  fbtraceId : String
deriving Repr, DecidableEq

/-- A failed gateway call. A `provider` failure is an HTTP-level rejection
carrying the provider's structured error object together with the
transport-level `error.message` string; a `transport` failure (network
error, timeout) carries only the transport message. -/
inductive GatewayError
  | provider (e : ProviderError) (transportMessage : String)
  | transport (message : String)
deriving Repr, DecidableEq

/-- The reminder route's error extraction
`axiosError.response?.data?.error?.message || (error as Error).message`:
the provider's structured message when present and non-empty (JS `||` falls
through on the empty string), else the transport message. -/
def gatewayErrorBody : GatewayError → String
  | .provider e transportMessage =>
      if e.message.isEmpty then transportMessage else e.message
  | .transport message => message

/-- A single gateway call's outcome. The client performs one HTTP post and
rethrows any failure unchanged, so a call is one draw from this type. -/
def GatewayOutcome := Except GatewayError WAResponse

/-- `Patient.findById`: first document whose id matches. -/
def findById (store : List Patient) (pid : String) : Option Patient :=
  store.find? (fun q => q.id == pid)

/-- `patient.save()` on a fetched document: write the mutated document back
over every document holding its id (with unique ids, the one slot it came
from). Documents with other ids are untouched. -/
def saveReplace (store : List Patient) (p : Patient) : List Patient :=
  store.map (fun q => if q.id == p.id then p else q)

/-- Request body of `POST /` (register patient). Every field is optional at
the transport boundary; the route validates presence itself. -/
structure RegisterRequest where
  fullName : Option String
  phone : Option String
  petName : Option String
  petType : Option PetType
  email : Option String
  petBreed : Option String
  petAge : Option Int
  petWeight : Option Int
deriving Repr, DecidableEq

/-- Failure modes of the register route: the 400 for missing fields and
the 400 for the duplicate-key error (Mongo code 11000). -/
inductive RegisterError
  | validation
  | duplicatePhone
deriving Repr, DecidableEq

/-- `POST /` (register patient): validate that `fullName`, `phone`,
`petName`, `petType` are present (a JS falsy check, so an empty string also
fails); construct the patient with schema defaults and save it, which the
unique phone index rejects when the phone already exists; then attempt a
best-effort welcome text whose outcome `welcome` is ignored — a failure is
only logged. Returns the resulting store and the route outcome. -/
def registerPatient (store : List Patient) (req : RegisterRequest)
    (newId : String) (welcome : Nat → GatewayOutcome) (now : Int) :
    List Patient × Except RegisterError Patient :=
  match req.fullName, req.phone, req.petName, req.petType with
  | some fn, some ph, some pn, some pt =>
    if fn.isEmpty || ph.isEmpty || pn.isEmpty then
      (store, .error .validation)
    else if store.any (fun q => q.phone == ph) then
      (store, .error .duplicatePhone)
    else
      let patient : Patient :=
        { id := newId
          fullName := fn
          phone := ph
          email := req.email
          petName := pn
          petType := pt
          petBreed := req.petBreed
          petAge := req.petAge
          petWeight := req.petWeight
          nextVaccine := none
          vaccineHistory := []
          consent := some (defaultConsent now)
          lastInteraction := none
          interactions := [] }
      -- The one best-effort welcome send; its outcome is dropped.
      let _attempt := welcome 0
      (store ++ [patient], .ok patient)
  | _, _, _, _ => (store, .error .validation)

/-- Request body of `POST /:id/vaccine`. `date` is already parsed to epoch
ms; the string fields are optional at the transport boundary. -/
structure VaccineRequest where
  name : Option String
  date : Option Int
  time : Option String
  location : Option String
  notes : Option String
  lotNumber : Option String
deriving Repr, DecidableEq

/-- Failure modes of the vaccine route. -/
inductive ScheduleError
  | validation
  | notFound
deriving Repr, DecidableEq

/-- The vaccine route's presence check `if (!name || !date || !time ||
!location)`, JS-falsy on absent and on empty-string fields: returns the
four required values exactly when all are present. -/
def vaccineFields (req : VaccineRequest) :
    Option (String × Int × String × String) :=
  match req.name, req.date, req.time, req.location with
  | some nm, some d, some tm, some loc =>
    if nm.isEmpty || tm.isEmpty || loc.isEmpty then none
    else some (nm, d, tm, loc)
  | _, _, _, _ => none

/-- `POST /:id/vaccine` (schedule vaccine): validate the required fields
(before the patient lookup, as in the route), look the patient up, then
assign a whole new `nextVaccine` object literal with `administered: false`
and no `nextDoseDate`, and save. -/
def scheduleVaccine (store : List Patient) (pid : String)
    (req : VaccineRequest) : List Patient × Except ScheduleError Vaccine :=
  match vaccineFields req with
  | none => (store, .error .validation)
  | some (nm, d, tm, loc) =>
    match findById store pid with
    | none => (store, .error .notFound)
    | some p =>
      let v : Vaccine :=
        { name := nm
          date := d
          time := tm
          location := loc
          notes := req.notes
          lotNumber := req.lotNumber
          nextDoseDate := none
          administered := false }
      (saveReplace store { p with nextVaccine := some v }, .ok v)

/-- Failure modes of the reminder route, in the order the route checks
them; `gateway` wraps a failed template send. -/
inductive SendError
  | notFound
  | noScheduledVaccine
  | consentDenied
  | gateway (e : GatewayError)
deriving Repr, DecidableEq

/-- The reminder route's consent gate
`(patient.consent || { reminders: true }).reminders`: an absent consent
record defaults to reminders allowed. -/
def consentAllows (p : Patient) : Bool :=
  match p.consent with
  | some c => c.reminders
  | none => true

/-- `POST /:id/reminder`, the patient mutation: look the patient up; 404
when absent; 400 when `nextVaccine` is absent; 400 when
`(patient.consent || { reminders: true }).reminders` is false; otherwise
perform the single template send `gw 0` and, on success, push one
`REMINDER_SENT`/`SENT` interaction whose `messageId` is
`response.messages[0]?.id` and set `lastInteraction` to now. -/
def sendReminderCore (store : List Patient) (pid : String)
    (gw : Nat → GatewayOutcome) (now : Int) :
    Except SendError (WAResponse × Patient) :=
  match findById store pid with
  | none => .error .notFound
  | some p =>
    match p.nextVaccine with
    | none => .error .noScheduledVaccine
    | some v =>
      if !consentAllows p then .error .consentDenied
      else
        match gw 0 with
        | .error e => .error (.gateway e)
        | .ok resp =>
          let newInteraction : Interaction :=
            { type := .REMINDER_SENT
              timestamp := some now
              message := some ("Recordatorio de vacuna: " ++ v.name)
              response := none
              messageId := (resp.messages.head?).map WAMessageId.id
              status := some .SENT }
          .ok (resp,
            { p with
              interactions := p.interactions ++ [newInteraction]
              lastInteraction := some now })

/-- `POST /:id/reminder`, the whole route: the document is saved only on
the success path, so on any failure the store is returned unchanged. -/
def sendReminder (store : List Patient) (pid : String)
    (gw : Nat → GatewayOutcome) (now : Int) :
    List Patient × Except SendError WAResponse :=
  match sendReminderCore store pid gw now with
  | .error e => (store, .error e)
  | .ok (resp, p) => (saveReplace store p, .ok resp)

/-- Request body of `PUT /:id/consent`: any subset of the three flags. -/
structure ConsentPatch where
  marketing : Option Bool
  reminders : Option Bool
  privacy : Option Bool
deriving Repr, DecidableEq

/-- Failure mode of the consent route. -/
inductive ConsentError
  | notFound
deriving Repr, DecidableEq

/-- `PUT /:id/consent` (update consent): look the patient up; take the
current consent (or the default object literal when absent, with both
timestamps "now"); overwrite each flag only when the patch carries it
(`x !== undefined ? x : current.x`), keep `givenAt`, stamp `updatedAt`
with now; save and return the new consent. -/
def updateConsent (store : List Patient) (pid : String)
    (patch : ConsentPatch) (now : Int) :
    List Patient × Except ConsentError Consent :=
  match findById store pid with
  | none => (store, .error .notFound)
  | some p =>
    let currentConsent : Consent :=
      match p.consent with
      | some c => c
      | none => defaultConsent now
    let newConsent : Consent :=
      { marketing := patch.marketing.getD currentConsent.marketing
        reminders := patch.reminders.getD currentConsent.reminders
        privacy := patch.privacy.getD currentConsent.privacy
        givenAt := currentConsent.givenAt
        updatedAt := now }
    (saveReplace store { p with consent := some newConsent }, .ok newConsent)



/-- Concrete vaccine event used to instantiate theorems. -/
def sampleVaccine : Vaccine :=
  { name := "Rabia"
    date := 0
    time := "10:00"
    location := "Clinica Central"
    notes := none
    lotNumber := none
    nextDoseDate := none
    administered := false }

/-- Concrete patient document used to instantiate theorems. -/
def samplePatient : Patient :=
  { id := "p1"
    fullName := "Ana Lopez"
    phone := "5551234567"
    email := none
    petName := "Firulais"
    petType := .DOG
    petBreed := none
    petAge := none
    petWeight := none
    nextVaccine := some sampleVaccine
    vaccineHistory := []
    consent := some (defaultConsent 0)
    lastInteraction := none
    interactions := [] }

/-- A vaccine dated `k` whole days after the start of day `s`, evaluated at
any instant `s + t` of that day, yields `diffDays = k` exactly. -/
theorem diffDays_whole_days (s t k : Int) (h0 : 0 ≤ t) (h1 : t < msPerDay) :
    diffDays (s + k * msPerDay) (s + t) = k := by
  simp only [diffDays, ceilDiv, msPerDay] at h1 ⊢
  omega

/-- Claim C1: `needsReminder` returns false when the patient has no
`nextVaccine` or `consent.reminders` is false; otherwise it returns true
iff `0 ≤ diffDays ≤ daysBefore` where `diffDays` is the ceiling of the
difference to the vaccine date in days; in particular it returns true for
a vaccine dated exactly `daysBefore` days from today, false for
`daysBefore + 1` days out, and false for a vaccine dated yesterday. -/
theorem needsReminder_spec :
    (∀ (p : Patient) (nowMs daysBefore : Int),
        p.nextVaccine = none → needsReminder p nowMs daysBefore = some false)
  ∧ (∀ (p : Patient) (c : Consent) (nowMs daysBefore : Int),
        p.consent = some c → c.reminders = false →
        needsReminder p nowMs daysBefore = some false)
  ∧ (∀ (p : Patient) (c : Consent) (v : Vaccine) (nowMs daysBefore : Int),
        p.consent = some c → c.reminders = true → p.nextVaccine = some v →
        (needsReminder p nowMs daysBefore = some true ↔
          0 ≤ diffDays v.date nowMs ∧ diffDays v.date nowMs ≤ daysBefore))
  ∧ (∀ (p : Patient) (c : Consent) (v : Vaccine) (s t daysBefore : Int),
        p.consent = some c → c.reminders = true → p.nextVaccine = some v →
        0 ≤ t → t < msPerDay → 0 ≤ daysBefore →
        (v.date = s + daysBefore * msPerDay →
            needsReminder p (s + t) daysBefore = some true)
      ∧ (v.date = s + (daysBefore + 1) * msPerDay →
            needsReminder p (s + t) daysBefore = some false)
      ∧ (v.date = s - msPerDay →
            needsReminder p (s + t) daysBefore = some false)) := by
  refine ⟨?_, ?_, ?_, ?_⟩
  · intro p nowMs daysBefore hnv
    simp [needsReminder, hnv]
  · intro p c nowMs daysBefore hc hr
    rcases hnv : p.nextVaccine with _ | v
    · simp [needsReminder, hnv]
    · simp [needsReminder, hnv, hc, hr]
  · intro p c v nowMs daysBefore hc hr hnv
    simp only [needsReminder, hnv, hc, hr, Bool.not_true, Bool.false_eq_true,
      if_false, Option.some.injEq, decide_eq_true_eq]
    constructor
    · rintro ⟨h1, h2⟩; exact ⟨h2, h1⟩
    · rintro ⟨h1, h2⟩; exact ⟨h2, h1⟩
  · intro p c v s t daysBefore hc hr hnv ht0 ht1 hd
    have base : ∀ dd : Int, v.date = s + dd * msPerDay →
        needsReminder p (s + t) daysBefore =
          some (decide (dd ≤ daysBefore ∧ 0 ≤ dd)) := by
      intro dd hdate
      simp only [needsReminder, hnv, hc, hr, Bool.not_true, Bool.false_eq_true,
        if_false, Option.some.injEq]
      rw [hdate, diffDays_whole_days s t dd ht0 ht1]
    refine ⟨?_, ?_, ?_⟩
    · intro hdate
      rw [base daysBefore hdate]
      simp [hd]
    · intro hdate
      rw [base (daysBefore + 1) hdate]
      simp
    · intro hdate
      rw [base (-1) (by rw [hdate]; ring)]
      simp

/-- Witness for C1: a vaccine dated exactly 3 days after the start of day 0,
checked 1 second into that day with `daysBefore = 3`, is due. -/
theorem needsReminder_spec_witness :
    needsReminder
      { samplePatient with nextVaccine := some { sampleVaccine with date := 259200000 } }
      (0 + 1000) 3 = some true :=
  (needsReminder_spec.2.2.2
    { samplePatient with nextVaccine := some { sampleVaccine with date := 259200000 } }
    (defaultConsent 0) { sampleVaccine with date := 259200000 } 0 1000 3
    rfl rfl rfl (by decide) (by decide) (by decide)).1 (by decide)

/-- Claim C7: `canReceiveOffers` returns false when `consent.marketing` is
false or `lastInteraction` is absent; otherwise (for a last interaction not
in the future) it returns true iff the last interaction lies within the
last 24 hours, inclusive at exactly 24 hours ago: true at exactly 24h ago
and at 24h minus one second ago, false at 24h plus one second ago. -/
theorem canReceiveOffers_spec :
    (∀ (p : Patient) (c : Consent) (nowMs : Int),
        p.consent = some c → c.marketing = false →
        canReceiveOffers p nowMs = some false)
  ∧ (∀ (p : Patient) (c : Consent) (nowMs : Int),
        p.consent = some c → p.lastInteraction = none →
        canReceiveOffers p nowMs = some false)
  ∧ (∀ (p : Patient) (c : Consent) (nowMs t : Int),
        p.consent = some c → c.marketing = true → p.lastInteraction = some t →
        t ≤ nowMs →
        (canReceiveOffers p nowMs = some true ↔ nowMs - t ≤ twentyFourHoursMs))
  ∧ (∀ (p : Patient) (c : Consent) (nowMs : Int),
        p.consent = some c → c.marketing = true →
        (p.lastInteraction = some (nowMs - twentyFourHoursMs) →
            canReceiveOffers p nowMs = some true)
      ∧ (p.lastInteraction = some (nowMs - twentyFourHoursMs + 1000) →
            canReceiveOffers p nowMs = some true)
      ∧ (p.lastInteraction = some (nowMs - twentyFourHoursMs - 1000) →
            canReceiveOffers p nowMs = some false)) := by
  refine ⟨?_, ?_, ?_, ?_⟩
  · intro p c nowMs hc hm
    simp [canReceiveOffers, hc, hm]
  · intro p c nowMs hc hl
    rcases hm : c.marketing <;> simp [canReceiveOffers, hc, hl, hm]
  · intro p c nowMs t hc hm hl hpast
    simp only [canReceiveOffers, hc, hm, hl, Bool.not_true, Bool.false_eq_true,
      if_false, Option.some.injEq, decide_eq_true_eq]
    omega
  · intro p c nowMs hc hm
    refine ⟨?_, ?_, ?_⟩ <;> intro hl <;>
      simp only [canReceiveOffers, hc, hm, hl, Bool.not_true, Bool.false_eq_true,
        if_false, Option.some.injEq, decide_eq_true_eq, decide_eq_false_iff_not] <;>
      omega

/-- Witness for C7: marketing consent granted and a last interaction exactly
24 hours minus one second before "now" allows offers. -/
theorem canReceiveOffers_spec_witness :
    canReceiveOffers
      { samplePatient with
          consent := some { defaultConsent 0 with marketing := true }
          lastInteraction := some (100000000000 - twentyFourHoursMs + 1000) }
      100000000000 = some true :=
  ((canReceiveOffers_spec.2.2.2
    { samplePatient with
        consent := some { defaultConsent 0 with marketing := true }
        lastInteraction := some (100000000000 - twentyFourHoursMs + 1000) }
    { defaultConsent 0 with marketing := true } 100000000000
    rfl rfl).2.1) rfl

/-- Claim C9: phone normalization strips all non-digit characters; exactly
10 digits get the default country code prefixed; otherwise an input that
began with `'+'` becomes the original input with only the leading `'+'`
dropped; otherwise the stripped digits are returned. -/
theorem formatPhoneNumber_spec (phone : String) :
    ((stripNonDigits phone).length = 10 →
        formatPhoneNumber phone = defaultCountryCode ++ stripNonDigits phone)
  ∧ ((stripNonDigits phone).length ≠ 10 → phone.data.head? = some '+' →
        formatPhoneNumber phone = String.mk (phone.data.drop 1))
  ∧ ((stripNonDigits phone).length ≠ 10 → phone.data.head? ≠ some '+' →
        formatPhoneNumber phone = stripNonDigits phone) := by
  refine ⟨?_, ?_, ?_⟩
  · intro h10
    simp [formatPhoneNumber, h10]
  · intro h10 hplus
    simp [formatPhoneNumber, h10, hplus]
  · intro h10 hplus
    simp [formatPhoneNumber, h10, hplus]

/-- Witness for C9: a hyphenated 10-digit number gets the country code. -/
theorem formatPhoneNumber_spec_witness :
    formatPhoneNumber "555-123-4567" = defaultCountryCode ++ stripNonDigits "555-123-4567" :=
  (formatPhoneNumber_spec "555-123-4567").1 (by decide)

/-- Concrete provider acceptance payload used to instantiate theorems. -/
def sampleResponse : WAResponse :=
  { messagingProduct := "whatsapp"
    contacts := [("5551234567", "525551234567")]
    messages := [{ id := "wamid.test1" }] }

/-- A found document's id matches the id it was looked up by. -/
theorem findById_id (store : List Patient) (pid : String) (p : Patient)
    (h : findById store pid = some p) : p.id = pid := by
  have hp := List.find?_some h
  simpa using hp

/-- Unfolding a lookup over a non-empty store one document at a time. -/
theorem findById_cons (q : Patient) (rest : List Patient) (pid : String) :
    findById (q :: rest) pid =
      if q.id == pid then some q else findById rest pid := by
  cases hqa : q.id == pid <;> simp [findById, List.find?_cons, hqa]

/-- Saving a mutated copy of a fetched document makes the next lookup by
the same id return that copy. -/
theorem findById_saveReplace (store : List Patient) (pid : String)
    (p p' : Patient) (h : findById store pid = some p) (hid : p'.id = p.id) :
    findById (saveReplace store p') pid = some p' := by
  have hpid : p.id = pid := findById_id store pid p h
  induction store with
  | nil => simp [findById] at h
  | cons q rest ih =>
    by_cases hq : (q.id == pid) = true
    · have hpq : p = q := by
        rw [findById_cons, if_pos hq] at h
        exact (Option.some_inj.mp h).symm
      have h1 : (q.id == p'.id) = true := by
        subst hpq
        simp [hid]
      have h2 : (p'.id == pid) = true := by
        simp [hid, hpid]
      show findById ((if q.id == p'.id then p' else q) :: saveReplace rest p') pid = some p'
      rw [if_pos h1, findById_cons, if_pos h2]
    · have h' : findById rest pid = some p := by
        rw [findById_cons, if_neg hq] at h
        exact h
      have h1 : ¬((q.id == p'.id) = true) := by
        rw [hid, hpid]
        exact hq
      show findById ((if q.id == p'.id then p' else q) :: saveReplace rest p') pid = some p'
      rw [if_neg h1, findById_cons, if_neg hq]
      exact ih h'

/-- Claim C3: `SendReminder` fails with the not-found error when the
patient is absent, with the no-scheduled-vaccine error when `nextVaccine`
is absent, and with the consent-denied error when `consent.reminders` is
false; an absent consent record is treated as reminders allowed (the
outcome is never consent-denied). In every failure case the store is
returned unchanged (no interaction is appended), and since the failing
result holds for every gateway behavior `gw`, the gateway outcome is never
consulted — no message is sent. -/
theorem sendReminder_failure_spec :
    (∀ (store : List Patient) (pid : String) (gw : Nat → GatewayOutcome)
        (now : Int), findById store pid = none →
        sendReminder store pid gw now = (store, .error .notFound))
  ∧ (∀ (store : List Patient) (pid : String) (gw : Nat → GatewayOutcome)
        (now : Int) (p : Patient),
        findById store pid = some p → p.nextVaccine = none →
        sendReminder store pid gw now = (store, .error .noScheduledVaccine))
  ∧ (∀ (store : List Patient) (pid : String) (gw : Nat → GatewayOutcome)
        (now : Int) (p : Patient) (v : Vaccine) (c : Consent),
        findById store pid = some p → p.nextVaccine = some v →
        p.consent = some c → c.reminders = false →
        sendReminder store pid gw now = (store, .error .consentDenied))
  ∧ (∀ (store : List Patient) (pid : String) (gw : Nat → GatewayOutcome)
        (now : Int) (p : Patient) (v : Vaccine),
        findById store pid = some p → p.nextVaccine = some v →
        p.consent = none →
        (sendReminder store pid gw now).2 ≠ .error .consentDenied) := by
  refine ⟨?_, ?_, ?_, ?_⟩
  · intro store pid gw now hp
    simp [sendReminder, sendReminderCore, hp]
  · intro store pid gw now p hp hv
    simp [sendReminder, sendReminderCore, hp, hv]
  · intro store pid gw now p v c hp hv hc hr
    simp [sendReminder, sendReminderCore, consentAllows, hp, hv, hc, hr]
  · intro store pid gw now p v hp hv hc
    rcases hgw : gw 0 with e | resp <;>
      simp [sendReminder, sendReminderCore, consentAllows, hp, hv, hc, hgw]

/-- Witness for C3: sending a reminder to an absent patient id fails with
the not-found error and leaves the one-patient store unchanged. -/
theorem sendReminder_failure_spec_witness :
    sendReminder [samplePatient] "nope" (fun _ => .ok sampleResponse) 0 =
      ([samplePatient], .error .notFound) :=
  sendReminder_failure_spec.1 [samplePatient] "nope"
    (fun _ => .ok sampleResponse) 0 (by decide)

/-- Claim C4: when the template send fails, the reminder route returns the
gateway error object unchanged (the provider's structured details, code and
message included, are carried verbatim inside it), the store is unchanged
(no interaction appended, `lastInteraction` untouched); the user-visible
error string of a structured provider failure is the provider's message,
not the generic transport string; and the route consults only the single
first gateway attempt — no retry is performed. -/
theorem sendReminder_gateway_failure_spec :
    (∀ (store : List Patient) (pid : String) (gw : Nat → GatewayOutcome)
        (now : Int) (p : Patient) (c : Consent) (v : Vaccine) (e : GatewayError),
        findById store pid = some p → p.nextVaccine = some v →
        p.consent = some c → c.reminders = true → gw 0 = .error e →
        sendReminder store pid gw now = (store, .error (.gateway e)))
  ∧ (∀ (pe : ProviderError) (transportMessage : String), pe.message ≠ "" →
        gatewayErrorBody (.provider pe transportMessage) = pe.message)
  ∧ (∀ (store : List Patient) (pid : String) (gw gw' : Nat → GatewayOutcome)
        (now : Int), gw 0 = gw' 0 →
        sendReminder store pid gw now = sendReminder store pid gw' now) := by
  refine ⟨?_, ?_, ?_⟩
  · intro store pid gw now p c v e hp hv hc hr hgw
    simp [sendReminder, sendReminderCore, consentAllows, hp, hv, hc, hr, hgw]
  · intro pe transportMessage hne
    simp [gatewayErrorBody, String.isEmpty_iff, hne]
  · intro store pid gw gw' now hgw
    simp only [sendReminder, sendReminderCore, hgw]

/-- Witness for C4: a provider-rejected send surfaces the provider message
and leaves the store unchanged. -/
theorem sendReminder_gateway_failure_spec_witness :
    sendReminder [samplePatient] "p1"
        (fun _ => .error (.provider
          { message := "Template name does not exist", type := "OAuthException"
            code := 132001, fbtraceId := "Axxxx" }
          "Request failed with status code 400")) 0 =
      ([samplePatient],
        .error (.gateway (.provider
          { message := "Template name does not exist", type := "OAuthException"
            code := 132001, fbtraceId := "Axxxx" }
          "Request failed with status code 400"))) ∧
    gatewayErrorBody (.provider
        { message := "Template name does not exist", type := "OAuthException"
          code := 132001, fbtraceId := "Axxxx" }
        "Request failed with status code 400") = "Template name does not exist" :=
  ⟨sendReminder_gateway_failure_spec.1 [samplePatient] "p1" _ 0 samplePatient
      (defaultConsent 0) sampleVaccine _ (by decide) rfl rfl rfl rfl,
    sendReminder_gateway_failure_spec.2.1
      { message := "Template name does not exist", type := "OAuthException"
        code := 132001, fbtraceId := "Axxxx" }
      "Request failed with status code 400" (by decide)⟩

/-- Claim C2: a successful `SendReminder` on a patient with a scheduled
vaccine and reminders consent writes back the patient with exactly one new
interaction appended — type `REMINDER_SENT`, status `SENT`, `messageId`
equal to the provider's returned identifier `mid` (non-empty by the stated
hypothesis) — and `lastInteraction` set to that record's timestamp. -/
theorem sendReminder_success_spec (store : List Patient) (pid : String)
    (gw : Nat → GatewayOutcome) (now : Int) (p : Patient) (c : Consent)
    (v : Vaccine) (resp : WAResponse) (mid : String) (rest : List WAMessageId)
    (hp : findById store pid = some p) (hv : p.nextVaccine = some v)
    (hc : p.consent = some c) (hr : c.reminders = true)
    (hgw : gw 0 = .ok resp) (hm : resp.messages = { id := mid } :: rest)
    (hmid : mid ≠ "") :
    sendReminder store pid gw now =
      (saveReplace store
        { p with
          interactions := p.interactions ++
            [{ type := .REMINDER_SENT
               timestamp := some now
               message := some ("Recordatorio de vacuna: " ++ v.name)
               response := none
               messageId := some mid
               status := some .SENT }]
          lastInteraction := some now },
       .ok resp) ∧
    (some mid : Option String) ≠ some "" := by
  refine ⟨?_, by simpa using hmid⟩
  simp [sendReminder, sendReminderCore, consentAllows, hp, hv, hc, hr, hgw, hm]

/-- Witness for C2: a concrete successful send appends the one expected
record to the sample patient. -/
theorem sendReminder_success_spec_witness :
    sendReminder [samplePatient] "p1" (fun _ => .ok sampleResponse) 500 =
      (saveReplace [samplePatient]
        { samplePatient with
          interactions := samplePatient.interactions ++
            [{ type := .REMINDER_SENT
               timestamp := some 500
               message := some ("Recordatorio de vacuna: " ++ sampleVaccine.name)
               response := none
               messageId := some "wamid.test1"
               status := some .SENT }]
          lastInteraction := some 500 },
       .ok sampleResponse) ∧
    (some "wamid.test1" : Option String) ≠ some "" :=
  sendReminder_success_spec [samplePatient] "p1" (fun _ => .ok sampleResponse)
    500 samplePatient (defaultConsent 0) sampleVaccine sampleResponse
    "wamid.test1" [] (by decide) rfl rfl rfl rfl rfl (by decide)

/-- Inversion of a successful reminder send: it can only arise from a
found patient with a scheduled vaccine, a passing consent gate and an
accepted gateway call, and the written-back document is the fetched one
with exactly one interaction appended and `lastInteraction` stamped. -/
theorem sendReminderCore_ok_inv (store : List Patient) (pid : String)
    (gw : Nat → GatewayOutcome) (now : Int) (p p' : Patient) (resp : WAResponse)
    (hp : findById store pid = some p)
    (h : sendReminderCore store pid gw now = .ok (resp, p')) :
    ∃ v : Vaccine, p.nextVaccine = some v ∧ consentAllows p = true ∧
      gw 0 = .ok resp ∧
      p' = { p with
        interactions := p.interactions ++
          [{ type := .REMINDER_SENT
             timestamp := some now
             message := some ("Recordatorio de vacuna: " ++ v.name)
             response := none
             messageId := (resp.messages.head?).map WAMessageId.id
             status := some .SENT }]
        lastInteraction := some now } := by
  rcases hv : p.nextVaccine with _ | v
  · simp [sendReminderCore, hp, hv] at h
  · cases hca : consentAllows p
    · simp [sendReminderCore, hp, hv, hca] at h
    · rcases hgw : gw 0 with e | r
      · simp [sendReminderCore, hp, hv, hca, hgw] at h
      · simp only [sendReminderCore, hp, hv, hca, Bool.not_true,
          Bool.false_eq_true, if_false, hgw, Except.ok.injEq, Prod.mk.injEq] at h
        obtain ⟨h1, h2⟩ := h
        subst h1
        exact ⟨v, rfl, rfl, rfl, h2.symm⟩

/-- Forward form of a successful reminder send, for reuse: the route
returns the store with the updated document written back. -/
theorem sendReminder_ok_of (store : List Patient) (pid : String)
    (gw : Nat → GatewayOutcome) (now : Int) (p : Patient) (v : Vaccine)
    (resp : WAResponse) (hp : findById store pid = some p)
    (hv : p.nextVaccine = some v) (hca : consentAllows p = true)
    (hgw : gw 0 = .ok resp) :
    sendReminder store pid gw now =
      (saveReplace store
        { p with
          interactions := p.interactions ++
            [{ type := .REMINDER_SENT
               timestamp := some now
               message := some ("Recordatorio de vacuna: " ++ v.name)
               response := none
               messageId := (resp.messages.head?).map WAMessageId.id
               status := some .SENT }]
          lastInteraction := some now },
       .ok resp) := by
  simp [sendReminder, sendReminderCore, hp, hv, hca, hgw]

/-- Claim C10: a successful `SendReminder` leaves `nextVaccine`,
`vaccineHistory` and `consent` unchanged and appends exactly one
interaction, so the patient stays eligible: a second `SendReminder` whose
gateway call is accepted succeeds again and appends a further record. -/
theorem sendReminder_frame_spec (store : List Patient) (pid : String)
    (gw : Nat → GatewayOutcome) (now : Int) (p : Patient)
    (store' : List Patient) (resp : WAResponse)
    (hp : findById store pid = some p)
    (h : sendReminder store pid gw now = (store', .ok resp)) :
    ∃ p' : Patient, findById store' pid = some p' ∧
      p'.nextVaccine = p.nextVaccine ∧
      p'.vaccineHistory = p.vaccineHistory ∧
      p'.consent = p.consent ∧
      p'.interactions.length = p.interactions.length + 1 ∧
      (∀ (gw' : Nat → GatewayOutcome) (now' : Int) (resp' : WAResponse),
          gw' 0 = .ok resp' →
          ∃ (store'' : List Patient) (p'' : Patient),
            sendReminder store' pid gw' now' = (store'', .ok resp') ∧
            findById store'' pid = some p'' ∧
            p''.nextVaccine = p.nextVaccine ∧
            p''.vaccineHistory = p.vaccineHistory ∧
            p''.interactions.length = p.interactions.length + 2) := by
  rcases hcore : sendReminderCore store pid gw now with e | pr
  · simp [sendReminder, hcore] at h
  · obtain ⟨r, pp⟩ := pr
    have hsr : sendReminder store pid gw now = (saveReplace store pp, .ok r) := by
      simp [sendReminder, hcore]
    rw [hsr] at h
    have hstore : saveReplace store pp = store' := congrArg Prod.fst h
    have hresp : r = resp := by
      have h2 := congrArg Prod.snd h
      simpa using h2
    subst hresp
    subst hstore
    obtain ⟨v, hv, hca, hgw, hpp⟩ :=
      sendReminderCore_ok_inv store pid gw now p pp r hp hcore
    have hid : pp.id = p.id := by rw [hpp]
    have hfind : findById (saveReplace store pp) pid = some pp :=
      findById_saveReplace store pid p pp hp hid
    have hnv : pp.nextVaccine = p.nextVaccine := by rw [hpp]
    have hvh : pp.vaccineHistory = p.vaccineHistory := by rw [hpp]
    have hcons : pp.consent = p.consent := by rw [hpp]
    have hlen : pp.interactions.length = p.interactions.length + 1 := by
      rw [hpp]; simp
    refine ⟨pp, hfind, hnv, hvh, hcons, hlen, ?_⟩
    intro gw' now' resp' hgw'
    have hv2 : pp.nextVaccine = some v := by rw [hnv]; exact hv
    have hca2 : consentAllows pp = true := by
      rw [consentAllows, hcons]
      rw [consentAllows] at hca
      exact hca
    have hsr2 := sendReminder_ok_of (saveReplace store pp) pid gw' now' pp v
      resp' hfind hv2 hca2 hgw'
    refine ⟨_, _, hsr2, findById_saveReplace (saveReplace store pp) pid pp _ hfind rfl,
      hnv, hvh, ?_⟩
    simpa using hlen

/-- Witness for C10: two consecutive successful sends to the sample
patient, the frame facts evaluated on its concrete store. -/
theorem sendReminder_frame_spec_witness :
    ∃ p' : Patient,
      findById (sendReminder [samplePatient] "p1"
        (fun _ => Except.ok sampleResponse) 500).1 "p1" = some p' ∧
      p'.nextVaccine = samplePatient.nextVaccine ∧
      p'.vaccineHistory = samplePatient.vaccineHistory ∧
      p'.consent = samplePatient.consent ∧
      p'.interactions.length = samplePatient.interactions.length + 1 ∧
      (∀ (gw' : Nat → GatewayOutcome) (now' : Int) (resp' : WAResponse),
          gw' 0 = .ok resp' →
          ∃ (store'' : List Patient) (p'' : Patient),
            sendReminder (sendReminder [samplePatient] "p1"
                (fun _ => Except.ok sampleResponse) 500).1 "p1" gw' now' =
              (store'', .ok resp') ∧
            findById store'' "p1" = some p'' ∧
            p''.nextVaccine = samplePatient.nextVaccine ∧
            p''.vaccineHistory = samplePatient.vaccineHistory ∧
            p''.interactions.length = samplePatient.interactions.length + 2) :=
  sendReminder_frame_spec [samplePatient] "p1"
    (fun _ => Except.ok sampleResponse) 500 samplePatient _ sampleResponse
    (by decide) rfl

/-- Claim C5: `UpdateConsent` overwrites exactly the consent fields present
in the partial update, keeps the fields absent from it at their previous
(or, for a patient without a consent record, default) values, preserves
the original `givenAt`, and always stamps `updatedAt` with now; in
particular a `marketing := true` patch on default consent leaves
`reminders` and `privacy` at true and only changes `marketing`. -/
theorem updateConsent_spec :
    (∀ (store : List Patient) (pid : String) (patch : ConsentPatch)
        (now : Int) (p : Patient) (c : Consent),
        findById store pid = some p → p.consent = some c →
        updateConsent store pid patch now =
          (saveReplace store
            { p with consent := some {
                  marketing := patch.marketing.getD c.marketing
                  reminders := patch.reminders.getD c.reminders
                  privacy := patch.privacy.getD c.privacy
                  givenAt := c.givenAt
                  updatedAt := now } },
           .ok
            { marketing := patch.marketing.getD c.marketing
              reminders := patch.reminders.getD c.reminders
              privacy := patch.privacy.getD c.privacy
              givenAt := c.givenAt
              updatedAt := now }))
  ∧ (∀ (store : List Patient) (pid : String) (patch : ConsentPatch)
        (now : Int) (p : Patient),
        findById store pid = some p → p.consent = none →
        updateConsent store pid patch now =
          (saveReplace store
            { p with consent := some {
                  marketing := patch.marketing.getD false
                  reminders := patch.reminders.getD true
                  privacy := patch.privacy.getD true
                  givenAt := now
                  updatedAt := now } },
           .ok
            { marketing := patch.marketing.getD false
              reminders := patch.reminders.getD true
              privacy := patch.privacy.getD true
              givenAt := now
              updatedAt := now }))
  ∧ (∀ (store : List Patient) (pid : String) (now g u : Int) (p : Patient),
        findById store pid = some p →
        p.consent = some { defaultConsent g with updatedAt := u } →
        (updateConsent store pid
            { marketing := some true, reminders := none, privacy := none }
            now).2 =
          .ok { marketing := true, reminders := true, privacy := true
                givenAt := g, updatedAt := now }) := by
  refine ⟨?_, ?_, ?_⟩
  · intro store pid patch now p c hp hc
    simp [updateConsent, hp, hc]
  · intro store pid patch now p hp hc
    simp [updateConsent, defaultConsent, hp, hc]
  · intro store pid now g u p hp hc
    simp [updateConsent, defaultConsent, hp, hc]

/-- Witness for C5: the `marketing := true` patch on the sample patient's
default consent changes only `marketing` and `updatedAt`. -/
theorem updateConsent_spec_witness :
    (updateConsent [samplePatient] "p1"
        { marketing := some true, reminders := none, privacy := none }
        900).2 =
      .ok { marketing := true, reminders := true, privacy := true
            givenAt := 0, updatedAt := 900 } :=
  updateConsent_spec.2.2 [samplePatient] "p1" 900 0 0 samplePatient
    (by decide) rfl

/-- JavaScript falsiness of an optional string request field: absent or
empty. -/
def jsFalsyStr (s : Option String) : Bool :=
  match s with
  | none => true
  | some t => t.isEmpty

/-- Claim C6: `ScheduleVaccine` fails with the validation error exactly
when `name`, `date`, `time` or `location` is missing; fails with the
not-found error when the fields are present but the patient is absent;
and otherwise overwrites `nextVaccine` entirely with a fresh event built
only from the request — `administered` false, no `nextDoseDate` — so no
field of any previously scheduled event leaks into the new record. -/
theorem scheduleVaccine_spec :
    (∀ (req : VaccineRequest),
        vaccineFields req = none ↔
          (jsFalsyStr req.name || req.date.isNone || jsFalsyStr req.time ||
            jsFalsyStr req.location) = true)
  ∧ (∀ (store : List Patient) (pid : String) (req : VaccineRequest),
        vaccineFields req = none →
        scheduleVaccine store pid req = (store, .error .validation))
  ∧ (∀ (store : List Patient) (pid : String) (req : VaccineRequest)
        (nm : String) (d : Int) (tm loc : String),
        vaccineFields req = some (nm, d, tm, loc) →
        findById store pid = none →
        scheduleVaccine store pid req = (store, .error .notFound))
  ∧ (∀ (store : List Patient) (pid : String) (req : VaccineRequest)
        (nm : String) (d : Int) (tm loc : String) (p : Patient),
        vaccineFields req = some (nm, d, tm, loc) →
        findById store pid = some p →
        scheduleVaccine store pid req =
          (saveReplace store
            { p with nextVaccine := some {
                  name := nm, date := d, time := tm, location := loc
                  notes := req.notes, lotNumber := req.lotNumber
                  nextDoseDate := none, administered := false } },
           .ok { name := nm, date := d, time := tm, location := loc
                 notes := req.notes, lotNumber := req.lotNumber
                 nextDoseDate := none, administered := false })) := by
  refine ⟨?_, ?_, ?_, ?_⟩
  · intro req
    rcases hn : req.name with _ | nm <;>
      rcases hd : req.date with _ | d <;>
        rcases ht : req.time with _ | tm <;>
          rcases hl : req.location with _ | loc <;>
            simp [vaccineFields, jsFalsyStr, hn, hd, ht, hl] <;>
            by_cases h1 : nm.isEmpty <;> by_cases h2 : tm.isEmpty <;>
              by_cases h3 : loc.isEmpty <;> simp [h1, h2, h3]
  · intro store pid req hreq
    simp [scheduleVaccine, hreq]
  · intro store pid req nm d tm loc hreq hp
    simp [scheduleVaccine, hreq, hp]
  · intro store pid req nm d tm loc p hreq hp
    simp [scheduleVaccine, hreq, hp]

/-- Witness for C6: rescheduling over an existing (fully populated)
`nextVaccine` on the sample patient yields exactly the fresh request-built
event. -/
theorem scheduleVaccine_spec_witness :
    scheduleVaccine
      [{ samplePatient with nextVaccine := some {
            name := "Moquillo", date := 111, time := "09:00"
            location := "Sucursal Norte", notes := some "old note"
            lotNumber := some "L-1", nextDoseDate := some 999
            administered := false } }]
      "p1"
      { name := some "Rabia", date := some 222, time := some "12:30"
        location := some "Clinica Central", notes := none, lotNumber := none } =
      (saveReplace
        [{ samplePatient with nextVaccine := some {
              name := "Moquillo", date := 111, time := "09:00"
              location := "Sucursal Norte", notes := some "old note"
              lotNumber := some "L-1", nextDoseDate := some 999
              administered := false } }]
        { { samplePatient with nextVaccine := some {
              name := "Moquillo", date := 111, time := "09:00"
              location := "Sucursal Norte", notes := some "old note"
              lotNumber := some "L-1", nextDoseDate := some 999
              administered := false } } with
            nextVaccine := some {
              name := "Rabia", date := 222, time := "12:30"
              location := "Clinica Central", notes := none, lotNumber := none
              nextDoseDate := none, administered := false } },
       .ok { name := "Rabia", date := 222, time := "12:30"
             location := "Clinica Central", notes := none, lotNumber := none
             nextDoseDate := none, administered := false }) :=
  scheduleVaccine_spec.2.2.2
    [{ samplePatient with nextVaccine := some {
          name := "Moquillo", date := 111, time := "09:00"
          location := "Sucursal Norte", notes := some "old note"
          lotNumber := some "L-1", nextDoseDate := some 999
          administered := false } }]
    "p1"
    { name := some "Rabia", date := some 222, time := some "12:30"
      location := some "Clinica Central", notes := none, lotNumber := none }
    "Rabia" 222 "12:30" "Clinica Central" _ (by decide) (by decide)

/-- Claim C8: `RegisterPatient` fails with the validation error when full
name, phone, pet name or pet type is missing; fails with the duplicate
error when a stored patient already holds the phone, leaving the store —
and so the first registration — untouched; on success it persists the new
patient, and the result is the same for every welcome-send behavior: a
failed best-effort welcome message is never propagated. -/
theorem registerPatient_spec :
    (∀ (store : List Patient) (req : RegisterRequest) (newId : String)
        (welcome : Nat → GatewayOutcome) (now : Int),
        (jsFalsyStr req.fullName || jsFalsyStr req.phone ||
          jsFalsyStr req.petName || req.petType.isNone) = true →
        registerPatient store req newId welcome now =
          (store, .error .validation))
  ∧ (∀ (store : List Patient) (req : RegisterRequest) (newId : String)
        (welcome : Nat → GatewayOutcome) (now : Int) (fn ph pn : String)
        (pt : PetType),
        req.fullName = some fn → req.phone = some ph → req.petName = some pn →
        req.petType = some pt →
        fn.isEmpty = false → ph.isEmpty = false → pn.isEmpty = false →
        store.any (fun q => q.phone == ph) = true →
        registerPatient store req newId welcome now =
          (store, .error .duplicatePhone))
  ∧ (∀ (store : List Patient) (req : RegisterRequest) (newId : String)
        (welcome : Nat → GatewayOutcome) (now : Int) (fn ph pn : String)
        (pt : PetType),
        req.fullName = some fn → req.phone = some ph → req.petName = some pn →
        req.petType = some pt →
        fn.isEmpty = false → ph.isEmpty = false → pn.isEmpty = false →
        store.any (fun q => q.phone == ph) = false →
        registerPatient store req newId welcome now =
          (store ++
            [{ id := newId, fullName := fn, phone := ph, email := req.email
               petName := pn, petType := pt, petBreed := req.petBreed
               petAge := req.petAge, petWeight := req.petWeight
               nextVaccine := none, vaccineHistory := []
               consent := some (defaultConsent now)
               lastInteraction := none, interactions := [] }],
           .ok { id := newId, fullName := fn, phone := ph, email := req.email
                 petName := pn, petType := pt, petBreed := req.petBreed
                 petAge := req.petAge, petWeight := req.petWeight
                 nextVaccine := none, vaccineHistory := []
                 consent := some (defaultConsent now)
                 lastInteraction := none, interactions := [] }))
  ∧ (∀ (store : List Patient) (req : RegisterRequest) (newId : String)
        (w w' : Nat → GatewayOutcome) (now : Int),
        registerPatient store req newId w now =
          registerPatient store req newId w' now) := by
  refine ⟨?_, ?_, ?_, ?_⟩
  · intro store req newId welcome now h
    rcases hn : req.fullName with _ | fn
    · simp [registerPatient, hn]
    · rcases hp : req.phone with _ | ph
      · simp [registerPatient, hn, hp]
      · rcases he : req.petName with _ | pn
        · simp [registerPatient, hn, hp, he]
        · rcases hy : req.petType with _ | pt
          · simp [registerPatient, hn, hp, he, hy]
          · simp only [jsFalsyStr, hn, hp, he, hy, Option.isNone_some,
              Bool.or_false] at h
            simp [registerPatient, hn, hp, he, hy, h]
  · intro store req newId welcome now fn ph pn pt hfn hph hpn hpt e1 e2 e3 hdup
    simp [registerPatient, hfn, hph, hpn, hpt, e1, e2, e3, hdup]
  · intro store req newId welcome now fn ph pn pt hfn hph hpn hpt e1 e2 e3 hdup
    simp [registerPatient, hfn, hph, hpn, hpt, e1, e2, e3, hdup]
  · intro store req newId w w' now
    rcases hn : req.fullName with _ | fn <;>
      rcases hp : req.phone with _ | ph <;>
        rcases he : req.petName with _ | pn <;>
          rcases hy : req.petType with _ | pt <;>
            simp [registerPatient, hn, hp, he, hy]

/-- Witness for C8: registering a second patient with the sample patient's
phone fails with the duplicate error and leaves the store unchanged. -/
theorem registerPatient_spec_witness :
    registerPatient [samplePatient]
      { fullName := some "Luis Perez", phone := some "5551234567"
        petName := some "Max", petType := some .CAT, email := none
        petBreed := none, petAge := none, petWeight := none }
      "p2" (fun _ => .error (.transport "connect ECONNREFUSED")) 1000 =
      ([samplePatient], .error .duplicatePhone) :=
  registerPatient_spec.2.1 [samplePatient]
    { fullName := some "Luis Perez", phone := some "5551234567"
      petName := some "Max", petType := some .CAT, email := none
      petBreed := none, petAge := none, petWeight := none }
    "p2" (fun _ => .error (.transport "connect ECONNREFUSED")) 1000
    "Luis Perez" "5551234567" "Max" .CAT rfl rfl rfl rfl
    (by decide) (by decide) (by decide) (by decide)
